import Mathlib

/-
Shallow embedding of eryajf/ldapool (ldapool.go).

Modelling choices, each mirroring the source:
- time.Duration and time.Time are Int nanoseconds; the current instant is an
  explicit argument wherever the source calls time.Now().
- a *ldap.Conn is identified by a Nat id; conn.IsClosing() is the snapshot
  field isClosing of the wrapper (the collaborator's answer at the moment the
  pool asks).
- a waiter channel (chan *LdapConn, capacity 1) is a single-slot buffer plus
  a closed flag; channels live in a heap `chans` keyed by the waiter key so
  that the reqConns map entry and the blocked goroutine alias the same
  channel object: deleting the map entry does not destroy the channel.
- the ghost field `live` records the ids of connections whose underlying
  session is currently open: every successful createConnection adds an id,
  every conn.Conn.Close() in the source removes it.  openConn is the
  source's openConn counter, updated exactly at the atomic.AddInt32 sites.
- rand.Uint64 / nextRequestKeyLocked is modelled by passing the fresh key as
  an argument; dialing and binding by a Bool oracle dialOk.
-/

def timeSecond : Int := 1000000000

def timeMinute : Int := 60 * timeSecond

def timeHour : Int := 60 * timeMinute

structure LdapConfig where
  Url : String
  BaseDN : String
  AdminDN : String
  AdminPass : String
  MaxOpen : Int
  MaxIdle : Int
  ConnMaxLifetime : Int
  ConnMaxIdleTime : Int
  ConnTimeout : Int
deriving DecidableEq

structure LdapConn where
  id : Nat
  createdAt : Int
  lastUsed : Int
  isClosing : Bool
deriving DecidableEq

/-- IsExpired, ldapool.go lines 70-79. -/
def LdapConn.IsExpired (lc : LdapConn) (maxLifetime maxIdleTime now : Int) : Bool :=
  (decide (maxLifetime > 0) && decide (now - lc.createdAt > maxLifetime)) ||
  (decide (maxIdleTime > 0) && decide (now - lc.lastUsed > maxIdleTime))

def LdapConn.refresh (lc : LdapConn) (now : Int) : LdapConn :=
  { lc with lastUsed := now }

structure WaiterChan where
  buf : Option LdapConn
  chClosed : Bool
deriving DecidableEq

structure LdapConnPool where
  config : LdapConfig
  conns : List LdapConn
  reqConns : List Nat
  chans : List (Nat × WaiterChan)
  openConn : Int
  closed : Bool
  live : List Nat
deriving DecidableEq

inductive PoolErr
  | invalidConfig
  | poolClosed
  | connectFailed
  | ctxCancelled
deriving DecidableEq

inductive AcquireOutcome
  | poolClosed
  | gotConn (c : LdapConn)
  | willCreate
  | waiting (key : Nat)
deriving DecidableEq

/-- Result of GetConnection.  `ok` carries the Go return pair (conn, nil):
the connection may itself be nil (receive from a closed channel).
`blocked` means the goroutine is suspended in the select on its waiter key. -/
inductive AcquireResult
  | ok (c : Option LdapConn)
  | err (e : PoolErr)
  | blocked (key : Nat)
deriving DecidableEq

/-- validateConfig, lines 146-157. -/
def validateConfig (c : LdapConfig) : Option PoolErr :=
  if c.Url = "" then some .invalidConfig
  else if c.AdminDN = "" then some .invalidConfig
  else if c.AdminPass = "" then some .invalidConfig
  else none

/-- setDefaults, lines 160-176. -/
def setDefaults (c : LdapConfig) : LdapConfig :=
  { c with
    MaxOpen := if c.MaxOpen ≤ 0 then 10 else c.MaxOpen
    MaxIdle := if c.MaxIdle ≤ 0 then 5 else c.MaxIdle
    ConnTimeout := if c.ConnTimeout ≤ 0 then 30 * timeSecond else c.ConnTimeout
    ConnMaxLifetime := if c.ConnMaxLifetime ≤ 0 then timeHour else c.ConnMaxLifetime
    ConnMaxIdleTime := if c.ConnMaxIdleTime ≤ 0 then 30 * timeMinute else c.ConnMaxIdleTime }

def lookupChan (chs : List (Nat × WaiterChan)) (key : Nat) : Option WaiterChan :=
  match chs.find? (fun kc => kc.1 == key) with
  | some kc => some kc.2
  | none => none

/-- `req <- conn` on the buffered channel with key `key`. -/
def deliverChan (chs : List (Nat × WaiterChan)) (key : Nat) (c : LdapConn) :
    List (Nat × WaiterChan) :=
  chs.map (fun kc => if kc.1 == key then (kc.1, { kc.2 with buf := some c }) else kc)

/-- The idle-reuse loop of GetConnection, lines 209-223, acting on the idle
list in pop order (head = tail of lcp.conns = most recently released).
Returns (first usable connection with lastUsed refreshed, remaining idle
entries in pop order, discarded entries). -/
def drainIdle (maxLifetime maxIdleTime now : Int) :
    List LdapConn → Option LdapConn × List LdapConn × List LdapConn
  | [] => (none, [], [])
  | c :: rest =>
    if !c.isClosing && !(c.IsExpired maxLifetime maxIdleTime now) then
      (some (c.refresh now), rest, [])
    else
      let r := drainIdle maxLifetime maxIdleTime now rest
      (r.1, r.2.1, c :: r.2.2)

/-- GetConnection up to the point where the mutex is released: the closed
check (line 202), the idle-reuse loop (209-223: each discarded entry's
underlying session is closed and openConn decremented), the capacity check
(226-227) and, when saturated, waiter registration (229-231).  `freshKey`
stands for nextRequestKeyLocked(). -/
def getConnectionLocked (p : LdapConnPool) (now : Int) (freshKey : Nat) :
    LdapConnPool × AcquireOutcome :=
  if p.closed then (p, .poolClosed)
  else
    let r := drainIdle p.config.ConnMaxLifetime p.config.ConnMaxIdleTime now p.conns.reverse
    let p' : LdapConnPool :=
      { p with
        conns := r.2.1.reverse
        openConn := p.openConn - r.2.2.length
        live := p.live.filter (fun i => !((r.2.2.map (fun d => d.id)).contains i)) }
    match r.1 with
    | some c => (p', .gotConn c)
    | none =>
      if p'.openConn ≥ p'.config.MaxOpen then
        ({ p' with
           reqConns := p'.reqConns ++ [freshKey]
           chans := (freshKey, ⟨none, false⟩) :: p'.chans }, .waiting freshKey)
      else (p', .willCreate)

/-- createConnection, lines 294-364: dial/bind (oracle dialOk), and on
success atomic.AddInt32(&openConn, 1).  Runs outside the mutex. -/
def createConnection (p : LdapConnPool) (dialOk : Bool) (newId : Nat) (now : Int) :
    LdapConnPool × Option LdapConn :=
  if dialOk then
    ({ p with openConn := p.openConn + 1, live := newId :: p.live },
     some { id := newId, createdAt := now, lastUsed := now, isClosing := false })
  else (p, none)

/-- The ctx.Done() branch of GetConnection's select, lines 237-242: take the
lock, delete(reqConns, reqKey), return ctx.Err().  The channel object stays
in the heap. -/
def cancelWaiter (p : LdapConnPool) (key : Nat) : LdapConnPool :=
  { p with reqConns := p.reqConns.filter (fun k => k ≠ key) }

/-- GetConnection, lines 201-249, run sequentially (no concurrent
interference).  ctxDone says whether the caller's context is already
cancelled: the source consults it only in the select (line 234), so a
cancelled context is observed only when the pool is saturated. -/
def GetConnection (p : LdapConnPool) (ctxDone : Bool) (now : Int) (freshKey : Nat)
    (dialOk : Bool) (newId : Nat) : LdapConnPool × AcquireResult :=
  match getConnectionLocked p now freshKey with
  | (p₁, .poolClosed) => (p₁, .err .poolClosed)
  | (p₁, .gotConn c) => (p₁, .ok (some c))
  | (p₁, .willCreate) =>
    match createConnection p₁ dialOk newId now with
    | (p₂, some c) => (p₂, .ok (some c))
    | (p₂, none) => (p₂, .err .connectFailed)
  | (p₁, .waiting key) =>
    if ctxDone then (cancelWaiter p₁ key, .err .ctxCancelled)
    else (p₁, .blocked key)

/-- What `case conn := <-req: return conn, nil` (lines 235-236) yields for a
goroutine blocked on waiter `key`: none = still blocked; some (.ok (some c))
= a delivered connection; some (.ok none) = the channel was closed, the
receive yields the zero value nil and GetConnection returns (nil, nil). -/
def resumeBlocked (p : LdapConnPool) (key : Nat) : Option AcquireResult :=
  match lookupChan p.chans key with
  | none => none
  | some ch =>
    match ch.buf with
    | some c => some (.ok (some c))
    | none => if ch.chClosed then some (.ok none) else none

/-- PutConnection, lines 252-291.  `conn = none` is the nil pointer. -/
def PutConnection (p : LdapConnPool) (conn : Option LdapConn) (now : Int) : LdapConnPool :=
  match conn with
  | none => p
  | some c =>
    if p.closed then
      { p with openConn := p.openConn - 1, live := p.live.erase c.id }
    else
      match p.reqConns with
      | key :: rest =>
        { p with reqConns := rest, chans := deliverChan p.chans key (c.refresh now) }
      | [] =>
        if decide ((p.conns.length : Int) < p.config.MaxIdle) && !c.isClosing &&
            !(c.IsExpired p.config.ConnMaxLifetime p.config.ConnMaxIdleTime now) then
          { p with conns := p.conns ++ [c.refresh now] }
        else
          { p with openConn := p.openConn - 1, live := p.live.erase c.id }

/-- cleanupExpiredConnections, lines 382-396 (one Reaper sweep). -/
def cleanupExpiredConnections (p : LdapConnPool) (now : Int) : LdapConnPool :=
  let bad := fun (c : LdapConn) =>
    c.isClosing || c.IsExpired p.config.ConnMaxLifetime p.config.ConnMaxIdleTime now
  let invalid := p.conns.filter bad
  { p with
    conns := p.conns.filter (fun c => !(bad c))
    openConn := p.openConn - invalid.length
    live := p.live.filter (fun i => !((invalid.map (fun d => d.id)).contains i)) }

/-- Close, lines 399-424.  Idle connections' sessions are closed WITHOUT
decrementing openConn (line 413 has no AddInt32); every channel still in the
map is closed; leased connections are untouched. -/
def Close (p : LdapConnPool) : LdapConnPool × Option PoolErr :=
  if p.closed then (p, some .poolClosed)
  else
    ({ p with
       closed := true
       live := p.live.filter (fun i => !((p.conns.map (fun d => d.id)).contains i))
       conns := []
       chans := p.chans.map (fun kc =>
         if p.reqConns.contains kc.1 then (kc.1, { kc.2 with chClosed := true }) else kc)
       reqConns := [] }, none)

def emptyPool (cfg : LdapConfig) : LdapConnPool :=
  { config := cfg, conns := [], reqConns := [], chans := [],
    openConn := 0, closed := false, live := [] }

/-- NewPool, lines 99-124: validate, setDefaults, eager test connection,
then testConn.Conn.Close() — which closes the session but does NOT
decrement openConn (line 118). -/
def NewPool (cfg : LdapConfig) (dialOk : Bool) (now : Int) : Option LdapConnPool :=
  match validateConfig cfg with
  | some _ => none
  | none =>
    match createConnection (emptyPool (setDefaults cfg)) dialOk 0 now with
    | (_, none) => none
    | (p₁, some tc) => some { p₁ with live := p₁.live.erase tc.id }

/-
Interleaving model for concurrent GetConnection calls.  A goroutine running
GetConnection decomposes into the atomic sections of the source: the locked
section (getConnectionLocked) and, when admitted, the createConnection call
that runs after the mutex is released (line 247: Unlock precedes the call;
the openConn increment happens inside createConnection on success, line 362).
-/

inductive GoPhase
  | start
  | creating
  | parked (key : Nat)
  | finished (r : AcquireResult)
deriving DecidableEq

structure Sys where
  pool : LdapConnPool
  gos : List GoPhase
deriving DecidableEq

/-- One atomic step of goroutine `gid`. -/
def stepGo (s : Sys) (gid : Nat) (now : Int) (freshKey newId : Nat) (dialOk : Bool) : Sys :=
  match s.gos.get? gid with
  | none => s
  | some .start =>
    match getConnectionLocked s.pool now freshKey with
    | (p', .poolClosed) => { pool := p', gos := s.gos.set gid (.finished (.err .poolClosed)) }
    | (p', .gotConn c) => { pool := p', gos := s.gos.set gid (.finished (.ok (some c))) }
    | (p', .willCreate) => { pool := p', gos := s.gos.set gid .creating }
    | (p', .waiting k) => { pool := p', gos := s.gos.set gid (.parked k) }
  | some .creating =>
    match createConnection s.pool dialOk newId now with
    | (p', some c) => { pool := p', gos := s.gos.set gid (.finished (.ok (some c))) }
    | (p', none) => { pool := p', gos := s.gos.set gid (.finished (.err .connectFailed)) }
  | some (.parked _) => s
  | some (.finished _) => s

/-- Run a schedule: each entry is (gid, now, freshKey, newId, dialOk). -/
def runSteps (s : Sys) : List (Nat × Int × Nat × Nat × Bool) → Sys
  | [] => s
  | a :: rest => runSteps (stepGo s a.1 a.2.1 a.2.2.1 a.2.2.2.1 a.2.2.2.2) rest

/-
Concrete scenarios.  `testCfg` has every numeric field positive, so
setDefaults leaves it unchanged and NewPool's behavior is fully explicit.
-/

def testCfg (maxOpen maxIdle : Int) : LdapConfig :=
  { Url := "ldap://h", BaseDN := "b", AdminDN := "a", AdminPass := "p",
    MaxOpen := maxOpen, MaxIdle := maxIdle,
    ConnMaxLifetime := timeHour, ConnMaxIdleTime := timeHour, ConnTimeout := timeSecond }

/-- The pool NewPool (testCfg 2 2) returns: the eager test connection leaves
openConn at 1 although its session was closed (live = []). -/
def c1pool : LdapConnPool :=
  { config := testCfg 2 2, conns := [], reqConns := [], chans := [],
    openConn := 1, closed := false, live := [] }

/-- Three goroutines enter GetConnection on the fresh pool; all three run the
locked section (each reads openConn = 1 < MaxOpen = 2) before any of them
runs createConnection. -/
def c1sys : Sys :=
  runSteps { pool := c1pool, gos := [.start, .start, .start] }
    [(0, 1, 11, 1, true), (1, 1, 12, 2, true), (2, 1, 13, 3, true),
     (0, 2, 11, 1, true), (1, 2, 12, 2, true), (2, 2, 13, 3, true)]

def c2pool : LdapConnPool :=
  { config := testCfg 1 2, conns := [], reqConns := [], chans := [],
    openConn := 1, closed := false, live := [] }

/-- On a fresh MaxOpen = 1 pool the first GetConnection already saturates
(openConn = 1 from the test connection) and parks on waiter key 77. -/
def c2blk : LdapConnPool × AcquireResult := GetConnection c2pool false 1 77 true 9

def c3pool : LdapConnPool :=
  { config := testCfg 3 5, conns := [], reqConns := [], chans := [],
    openConn := 1, closed := false, live := [] }

def c3conn : LdapConn := { id := 1, createdAt := 1, lastUsed := 1, isClosing := false }

/-- Acquire one connection from the fresh MaxOpen = 3 pool. -/
def c3leased : LdapConnPool × AcquireResult := GetConnection c3pool false 1 10 true 1

/-- ... and release it, so the pool holds one idle connection. -/
def c3idle : LdapConnPool := PutConnection c3leased.1 (some c3conn) 2

def c5cfg : LdapConfig :=
  { Url := "ldap://h", BaseDN := "b", AdminDN := "a", AdminPass := "p",
    MaxOpen := 0, MaxIdle := 0, ConnMaxLifetime := 0, ConnMaxIdleTime := 0, ConnTimeout := 0 }

def c5pool : LdapConnPool := { emptyPool (setDefaults c5cfg) with openConn := 10 }

def c6pool : LdapConnPool :=
  { config := testCfg 2 5, conns := [], reqConns := [], chans := [],
    openConn := 1, closed := false, live := [] }

/-- Acquire from the fresh pool, then release: one usable idle connection. -/
def c6idle : LdapConnPool :=
  PutConnection (GetConnection c6pool false 1 11 true 1).1 (some c3conn) 2

/-- A second GetConnection on the saturated pool parks on waiter key 200. -/
def c7blk : LdapConnPool × AcquireResult :=
  GetConnection (GetConnection c6pool false 1 11 true 1).1 false 2 200 true 55

/-- The holder releases its connection, which is handed to waiter 200's
channel; concurrently waiter 200's context fires and it runs the
cancellation branch (delete from reqConns, return ctx.Err()). -/
def c7final : LdapConnPool := cancelWaiter (PutConnection c7blk.1 (some c3conn) 3) 200

def c8conn : LdapConn := { id := 1, createdAt := 0, lastUsed := 0, isClosing := false }

def c8bad : LdapConn := { id := 2, createdAt := 0, lastUsed := 0, isClosing := true }

/-- A pool whose idle list holds a usable connection and, at the tail, a
dead one: the idle-reuse loop pops the dead one first. -/
def c8pool : LdapConnPool :=
  { config := testCfg 3 5, conns := [c8conn, c8bad], reqConns := [], chans := [],
    openConn := 3, closed := false, live := [1, 2] }

/-
Theorems.
-/

/-- C1: REFUTED ON THE CODE.  The claim says the number of simultaneously
open connections (successful createConnection calls minus closes, here the
ghost list `live`) never exceeds MaxOpen when MaxOpen > 0, and that Acquire
increments openCount under the lock before calling the factory.  In the
source the capacity check reads openConn under the lock but the increment
happens inside createConnection, after dial/bind success and after the lock
is released.  Starting from the pool NewPool returns for MaxOpen = 2, three
concurrent GetConnection calls all pass the check (the locked section leaves
openConn at 1, fourth conjunct) before any factory call runs, and the run
ends with 3 simultaneously open connections, exceeding MaxOpen = 2. -/
theorem C1_maxopen_race :
    NewPool (testCfg 2 2) true 0 = some c1pool ∧
    c1pool.openConn = 1 ∧ c1pool.live = [] ∧
    (stepGo { pool := c1pool, gos := [.start, .start, .start] } 0 1 11 1 true).pool.openConn
      = 1 ∧
    c1sys.pool.config.MaxOpen = 2 ∧
    c1sys.pool.live.length = 3 ∧
    c1sys.pool.openConn = 4 ∧
    c1sys.gos = [.finished (.ok (some ⟨1, 2, 2, false⟩)),
                 .finished (.ok (some ⟨2, 2, 2, false⟩)),
                 .finished (.ok (some ⟨3, 2, 2, false⟩))] := by
  decide

/-- C2: REFUTED ON THE CODE.  Close does close the still-registered waiter's
channel, and the blocked GetConnection does unblock — but receiving from the
closed channel yields the zero value nil and line 236 returns (nil, nil), so
the caller sees a nil connection with a nil error, not a pool-closed error. -/
theorem C2_close_waiter :
    NewPool (testCfg 1 2) true 0 = some c2pool ∧
    c2blk.2 = .blocked 77 ∧
    lookupChan (Close c2blk.1).1.chans 77 = some ⟨none, true⟩ ∧
    resumeBlocked (Close c2blk.1).1 77 = some (.ok none) ∧
    (AcquireResult.ok none ≠ .err .poolClosed) := by
  decide

/-- C3: REFUTED ON THE CODE.  NewPool's eager test connection increments
openConn to 1 and is then closed with testConn.Conn.Close() (line 118),
which never decrements openConn: right after NewPool, openConn = 1 while no
live connection exists.  Close likewise closes idle connections (line 413)
without decrementing: after acquiring and releasing one connection on the
fresh pool and then closing it, openConn is still 2 with zero live
connections. -/
theorem C3_opencount_drift :
    NewPool (testCfg 3 5) true 0 = some c3pool ∧
    c3pool.openConn = 1 ∧ c3pool.live = [] ∧
    c3leased.2 = .ok (some c3conn) ∧
    c3idle.conns.length = 1 ∧ c3idle.openConn = 2 ∧
    (Close c3idle).1.conns = [] ∧ (Close c3idle).1.live = [] ∧
    (Close c3idle).1.openConn = 2 := by
  decide

/-- C4: REFUTED ON THE CODE.  Releasing the same connection twice is not a
no-op: PutConnection keeps no record of what has already been released, so
the second call appends the very same connection (id 1) to the idle list
again — the list then holds it twice, and the double release does not equal
a single release. -/
theorem C4_double_release :
    c3leased.2 = .ok (some c3conn) ∧
    (PutConnection c3leased.1 (some c3conn) 2).conns.map (fun d => d.id) = [1] ∧
    (PutConnection (PutConnection c3leased.1 (some c3conn) 2) (some c3conn) 3).conns.map
      (fun d => d.id) = [1, 1] ∧
    PutConnection (PutConnection c3leased.1 (some c3conn) 2) (some c3conn) 3
      ≠ PutConnection c3leased.1 (some c3conn) 2 := by
  decide

/-- C5: counterexample.  Zero does not mean "no limit": setDefaults rewrites
MaxOpen = 0 to 10, ConnMaxLifetime = 0 to one hour and ConnMaxIdleTime = 0
to thirty minutes, so under a config created with zeros a pool with 10 open
connections makes Acquire wait (bounded, not unbounded), and a connection
two hours old is expired (the age check is not disabled). -/
theorem C5_zero_not_unbounded :
    (setDefaults c5cfg).MaxOpen = 10 ∧
    (setDefaults c5cfg).ConnMaxLifetime = timeHour ∧
    (setDefaults c5cfg).ConnMaxIdleTime = 30 * timeMinute ∧
    (getConnectionLocked c5pool 0 5).2 = .waiting 5 ∧
    LdapConn.IsExpired ⟨0, 0, 0, false⟩ (setDefaults c5cfg).ConnMaxLifetime
      (setDefaults c5cfg).ConnMaxIdleTime (2 * timeHour) = true := by
  decide

/-- C6: counterexample.  A context already cancelled when GetConnection is
entered does not produce an immediate cancellation error: on a pool with a
usable idle connection the call returns that connection with a nil error,
because the source consults the context only inside the select of the
saturated path. -/
theorem C6_cancelled_ctx_gets_conn :
    NewPool (testCfg 2 5) true 0 = some c6pool ∧
    c6idle.conns.length = 1 ∧
    (GetConnection c6idle true 3 12 true 9).2 = .ok (some ⟨1, 1, 3, false⟩) ∧
    (AcquireResult.ok (some ⟨1, 1, 3, false⟩) ≠ .err .ctxCancelled) := by
  decide

/-- C7: REFUTED ON THE CODE.  When PutConnection hands the released
connection to waiter 200 (depositing it in the waiter's buffered channel and
removing the map entry) while that waiter's GetConnection simultaneously
runs its cancellation branch (deleting its — already removed — map entry and
returning ctx.Err()), the delivered connection (id 1) ends up in the
abandoned channel: the idle list and waiter map are empty, yet openConn = 2
and the session is still open.  Nothing recovers it — it is leaked, not
returned to the pool. -/
theorem C7_handoff_leak :
    c7blk.2 = .blocked 200 ∧
    c7final.conns = [] ∧
    c7final.reqConns = [] ∧
    lookupChan c7final.chans 200 = some ⟨some ⟨1, 1, 3, false⟩, false⟩ ∧
    c7final.openConn = 2 ∧
    c7final.live = [1] := by
  decide

/-- C10: CONFIRMED.  PutConnection with a nil connection returns immediately
and leaves the whole pool state — idle list, waiter map, openConn, closed
flag — unchanged. -/
theorem C10_put_nil_noop : ∀ (p : LdapConnPool) (now : Int), PutConnection p none now = p := by
  intro p now
  rfl

/-- Characterization of the idle-reuse loop: when it yields a connection,
the input splits into failing entries (popped first), the found entry, and
the untouched remainder. -/
theorem drainIdle_eq_some (mlt mit now : Int) :
    ∀ (l : List LdapConn) (c : LdapConn) (rem ds : List LdapConn),
      drainIdle mlt mit now l = (some c, rem, ds) →
      ∃ c₀, l = ds ++ c₀ :: rem ∧
        (∀ d ∈ ds, d.isClosing = true ∨ d.IsExpired mlt mit now = true) ∧
        c₀.isClosing = false ∧ c₀.IsExpired mlt mit now = false ∧
        c = c₀.refresh now := by
  intro l
  induction l with
  | nil => intro c rem ds h; simp [drainIdle] at h
  | cons a t ih =>
    intro c rem ds h
    by_cases ha : (!a.isClosing && !(a.IsExpired mlt mit now)) = true
    · rw [drainIdle, if_pos ha] at h
      simp only [Prod.mk.injEq, Option.some.injEq] at h
      obtain ⟨hc, hrem, hds⟩ := h
      refine ⟨a, ?_, ?_, ?_, ?_, ?_⟩
      · simp [← hds, hrem]
      · simp [← hds]
      · simp only [Bool.and_eq_true, Bool.not_eq_true'] at ha
        exact ha.1
      · simp only [Bool.and_eq_true, Bool.not_eq_true'] at ha
        exact ha.2
      · exact hc.symm
    · rw [drainIdle, if_neg ha] at h
      rcases hr : drainIdle mlt mit now t with ⟨f, rm, dd⟩
      rw [hr] at h
      simp only [Prod.mk.injEq] at h
      obtain ⟨hf, hrm, hds⟩ := h
      obtain ⟨c₀, hl, hall, hcl, hexp, hcc⟩ := ih c rm dd (by rw [hr, hf])
      refine ⟨c₀, ?_, ?_, hcl, hexp, hcc⟩
      · rw [← hds, ← hrm, List.cons_append, hl]
      · intro d hd
        rw [← hds] at hd
        rcases List.mem_cons.mp hd with hda | hdd
        · subst hda
          simp only [Bool.and_eq_true, Bool.not_eq_true'] at ha
          rcases Decidable.not_and_iff_or_not.mp ha with h1 | h1
          · exact Or.inl (Bool.not_eq_false _ ▸ (by revert h1; cases d.isClosing <;> simp))
          · exact Or.inr (by revert h1; cases d.IsExpired mlt mit now <;> simp)
        · exact hall d hdd

/-- C8: CONFIRMED.  Whenever GetConnection's idle-reuse step (on an open
pool) returns a connection, the idle list viewed in pop order (tail first,
most recently released first) splits as ds ++ c₀ :: rest: every popped
candidate in ds was dead or expired (each one discarded, openConn ending up
decremented by ds.length), c₀ is the first candidate passing both checks and
is returned with its last-used timestamp refreshed, and rest is untouched
(the new idle list); in particular the returned connection was neither dead
nor expired under MaxLifetime/MaxIdleTime at the moment of the check. -/
theorem C8_idle_reuse (p : LdapConnPool) (now : Int) (k : Nat) (c : LdapConn)
    (hcl : p.closed = false)
    (hc : (getConnectionLocked p now k).2 = .gotConn c) :
    ∃ ds c₀ rest,
      p.conns.reverse = ds ++ c₀ :: rest ∧
      (∀ d ∈ ds, d.isClosing = true ∨
        d.IsExpired p.config.ConnMaxLifetime p.config.ConnMaxIdleTime now = true) ∧
      c₀.isClosing = false ∧
      c₀.IsExpired p.config.ConnMaxLifetime p.config.ConnMaxIdleTime now = false ∧
      c = c₀.refresh now ∧
      (getConnectionLocked p now k).1.conns = rest.reverse ∧
      (getConnectionLocked p now k).1.openConn = p.openConn - ds.length := by
  rcases hdd : drainIdle p.config.ConnMaxLifetime p.config.ConnMaxIdleTime now p.conns.reverse
    with ⟨found, rem, dd⟩
  cases found with
  | none =>
    exfalso
    simp only [getConnectionLocked, hcl, Bool.false_eq_true, if_false, hdd] at hc
    split at hc <;> simp at hc
  | some c' =>
    have hget : getConnectionLocked p now k =
        ({ p with
           conns := rem.reverse
           openConn := p.openConn - dd.length
           live := p.live.filter (fun i => !((dd.map (fun d => d.id)).contains i)) },
         .gotConn c') := by
      simp only [getConnectionLocked, hcl, Bool.false_eq_true, if_false, hdd]
    have hcc : c' = c := by
      rw [hget] at hc
      simpa using hc
    subst hcc
    obtain ⟨c₀, hl, hall, hcl₀, hexp₀, hcc₀⟩ :=
      drainIdle_eq_some p.config.ConnMaxLifetime p.config.ConnMaxIdleTime now
        p.conns.reverse c' rem dd hdd
    exact ⟨dd, c₀, rem, hl, hall, hcl₀, hexp₀, hcc₀, by rw [hget], by rw [hget]⟩

/-- Witness for C8 at a concrete pool: the dead tail entry is popped and
discarded, the usable one is returned refreshed. -/
theorem C8_idle_reuse_witness :
    ∃ ds c₀ rest,
      c8pool.conns.reverse = ds ++ c₀ :: rest ∧
      (∀ d ∈ ds, d.isClosing = true ∨
        d.IsExpired c8pool.config.ConnMaxLifetime c8pool.config.ConnMaxIdleTime 1 = true) ∧
      c₀.isClosing = false ∧
      c₀.IsExpired c8pool.config.ConnMaxLifetime c8pool.config.ConnMaxIdleTime 1 = false ∧
      (⟨1, 0, 1, false⟩ : LdapConn) = c₀.refresh 1 ∧
      (getConnectionLocked c8pool 1 9).1.conns = rest.reverse ∧
      (getConnectionLocked c8pool 1 9).1.openConn = c8pool.openConn - ds.length :=
  C8_idle_reuse c8pool 1 9 ⟨1, 0, 1, false⟩ (by decide) (by decide)

/-- C9: CONFIRMED.  If the idle list respects MaxIdle before a PutConnection
call, it still does afterwards: the waiter-handoff, pool-closed and
discard paths leave it unchanged, and the keep-idle path appends only under
the guard idle.length < MaxIdle. -/
theorem C9_maxidle_preserved (p : LdapConnPool) (conn : Option LdapConn) (now : Int)
    (h : (p.conns.length : Int) ≤ p.config.MaxIdle) :
    ((PutConnection p conn now).conns.length : Int) ≤ p.config.MaxIdle := by
  cases conn with
  | none => simpa [PutConnection] using h
  | some c =>
    simp only [PutConnection]
    split
    · simpa using h
    · cases hreq : p.reqConns with
      | cons key rest => simpa using h
      | nil =>
        simp only
        split
        next hcond =>
          have hlt : (p.conns.length : Int) < p.config.MaxIdle := by
            simp only [Bool.and_eq_true, decide_eq_true_eq] at hcond
            exact hcond.1.1
          simp only [List.length_append, List.length_cons, List.length_nil]
          push_cast
          omega
        next => simpa using h

/-- Witness for C9: releasing onto a one-entry idle list under MaxIdle = 5. -/
theorem C9_maxidle_preserved_witness :
    ((c3idle.conns.length : Int) ≤ c3idle.config.MaxIdle) ∧
    (((PutConnection c3idle (some c3conn) 4).conns.length : Int) ≤ c3idle.config.MaxIdle) :=
  ⟨by decide, C9_maxidle_preserved c3idle (some c3conn) 4 (by decide)⟩

/-- C5 amended: zero-valued numeric fields do not mean "no limit" — NewPool's
setDefaults replaces them with fixed defaults (MaxOpen 10, MaxIdle 5,
ConnTimeout 30s, ConnMaxLifetime 1h, ConnMaxIdleTime 30m); only a zero
threshold reaching IsExpired directly would disable that expiration check,
and after setDefaults the thresholds are positive. -/
theorem C5_defaults_amended (cfg : LdapConfig) (c : LdapConn) (now : Int)
    (h1 : cfg.MaxOpen ≤ 0) (h2 : cfg.MaxIdle ≤ 0) (h3 : cfg.ConnTimeout ≤ 0)
    (h4 : cfg.ConnMaxLifetime ≤ 0) (h5 : cfg.ConnMaxIdleTime ≤ 0) :
    (setDefaults cfg).MaxOpen = 10 ∧ (setDefaults cfg).MaxIdle = 5 ∧
    (setDefaults cfg).ConnTimeout = 30 * timeSecond ∧
    (setDefaults cfg).ConnMaxLifetime = timeHour ∧
    (setDefaults cfg).ConnMaxIdleTime = 30 * timeMinute ∧
    c.IsExpired 0 0 now = false := by
  refine ⟨?_, ?_, ?_, ?_, ?_, ?_⟩ <;>
    simp [setDefaults, LdapConn.IsExpired, h1, h2, h3, h4, h5]

/-- Witness for the amended C5 at the all-zero config. -/
theorem C5_defaults_amended_witness :
    (setDefaults c5cfg).MaxOpen = 10 ∧ (setDefaults c5cfg).MaxIdle = 5 ∧
    (setDefaults c5cfg).ConnTimeout = 30 * timeSecond ∧
    (setDefaults c5cfg).ConnMaxLifetime = timeHour ∧
    (setDefaults c5cfg).ConnMaxIdleTime = 30 * timeMinute ∧
    LdapConn.IsExpired ⟨0, 0, 0, false⟩ 0 0 7 = false :=
  C5_defaults_amended c5cfg ⟨0, 0, 0, false⟩ 7 (by decide) (by decide) (by decide)
    (by decide) (by decide)

/-- C6 amended: GetConnection observes the caller's context only at the
blocking select of the saturated path; whenever the idle-reuse step yields a
usable connection, the call returns that connection with a nil error even
though the context was already cancelled at entry. -/
theorem C6_cancelled_ctx_amended (p : LdapConnPool) (now : Int) (k newId : Nat)
    (dialOk : Bool) (c : LdapConn)
    (hc : (getConnectionLocked p now k).2 = .gotConn c) :
    GetConnection p true now k dialOk newId = ((getConnectionLocked p now k).1, .ok (some c)) := by
  rcases hg : getConnectionLocked p now k with ⟨p₁, out⟩
  rw [hg] at hc
  simp only at hc
  subst hc
  simp [GetConnection, hg]

/-- Witness for the amended C6: the pool with one usable idle connection
hands it out despite the cancelled context. -/
theorem C6_cancelled_ctx_amended_witness :
    GetConnection c6idle true 3 12 true 9 =
      ((getConnectionLocked c6idle 3 12).1, .ok (some ⟨1, 1, 3, false⟩)) :=
  C6_cancelled_ctx_amended c6idle 3 12 9 true ⟨1, 1, 3, false⟩ (by decide)
